import Mathlib

/-!
Verification of the dashboard permission filter SQL builders
(`pkg/services/sqlstore/permissions/dashboard.go`).

The Go source is shallowly embedded: SQL text is `String`, positional
query parameters are a `List Param`, Go `int64` values are `Int`,
Go maps are association lists, nilable pointers/maps are `Option`.
External collaborators of the file (role resolver, wildcard
construction, feature toggles) are modelled as explicit data, as the
spec directs.
-/

set_option maxRecDepth 16384

namespace Permissions

/-- A positional SQL query parameter (Go `interface{}` values: the file
only ever binds strings — roles, action names — and integers — ids,
permission levels, counts). -/
inductive Param where
  | pstr : String → Param
  | pint : Int → Param
deriving DecidableEq, Repr

/-- Number of positional placeholders `?` occurring in a SQL text. -/
def countQ (s : String) : Nat :=
  s.toList.countP (fun c => c == '?')

/-- Go `strings.Repeat s n`. -/
def strRepeat (s : String) : Nat → String
  | 0 => ""
  | n + 1 => s ++ strRepeat s n

/-! ## Constants of the collaborating packages

These string constants live in other packages of the repository
(`org`, `dashboards`, `accesscontrol`, `searchstore`, `featuremgmt`);
their concrete spellings are irrelevant to every property below. -/

def RoleAdmin : String := "Admin"
def RoleEditor : String := "Editor"
def RoleViewer : String := "Viewer"

def TypeFolder : String := "dash-folder"
def TypeDashboard : String := "dash-db"
def TypeAlertFolder : String := "dash-folder-alerting"

def ActionFoldersRead : String := "folders:read"
def ActionDashboardsRead : String := "dashboards:read"
def ActionDashboardsCreate : String := "dashboards:create"
def ActionDashboardsWrite : String := "dashboards:write"
def ActionAlertingRuleRead : String := "alert.rules:read"
def ActionAlertingRuleCreate : String := "alert.rules:create"

def ScopeDashboards : String := "dashboards:uid:"
def ScopeFolders : String := "folders:uid:"

/-- `dashboards.PERMISSION_VIEW` (the lowest permission level). -/
def PERMISSION_VIEW : Int := 1

def FlagNestedFolders : String := "nestedFolders"

/-! ## User context and wildcards -/

/-- The per-organization permission index: action name ↦ granted scopes
(Go `map[string][]string`, as an association list). -/
abbrev PermMap := List (String × List String)

/-- `user.SignedInUser`: the fields the filter reads. `Permissions` is
the Go `map[int64]map[string][]string`, nilable. -/
structure SignedInUser where
  UserID : Int
  OrgID : Int
  OrgRole : String
  Teams : List Int
  Permissions : Option (List (Int × PermMap))

/-- Modelled from the spec: external `accesscontrol.Wildcards`, a set of
wildcard scope strings with a containment test determining whether a
scope falls under one of them. -/
structure Wildcards where
  wildcards : List String

/-- Modelled from the spec: the containment test of a wildcard set —
a scope is contained when it is one of the wildcard scopes. -/
def Wildcards.Contains (w : Wildcards) (scope : String) : Bool :=
  w.wildcards.contains scope

/-- Modelled from the spec: external `accesscontrol.WildcardsFromPrefix` —
the wildcards covering a scope kind: the global wildcard and the
kind-level wildcard. -/
def WildcardsFromKind (kind : String) : Wildcards :=
  ⟨["*", kind ++ "*"]⟩

/-- Modelled from the spec: external `accesscontrol.GetOrgRoles` returns
the user's organization roles. -/
def GetOrgRoles (u : SignedInUser) : List String := [u.OrgRole]

/-- Go map indexing `permissions[a]` (missing key yields the zero value,
an empty scope list). -/
def scopesOf : PermMap → String → List String
  | [], _ => []
  | (k, v) :: rest, a => if k = a then v else scopesOf rest a

/-- Go map indexing `f.user.Permissions[f.user.OrgID]` (missing key
yields a nil map, modelled as `none`). -/
def lookupOrg : List (Int × PermMap) → Int → Option PermMap
  | [], _ => none
  | (o, m) :: rest, orgID => if o = orgID then some m else lookupOrg rest orgID

/-- The inner loop of `actionsToCheck` over the supplied wildcard sets
(source lines 305-310): stops at the first wildcard containing the scope. -/
def wildcardHit : List Wildcards → String → Bool
  | [], _ => false
  | w :: ws, scope => if w.Contains scope then true else wildcardHit ws scope

/-- The scope loop of `actionsToCheck` (source lines 303-311): scans the
granted scopes of one action for a wildcard-covered one (`break outer`
at the first hit). -/
def hasWildcardScope (ws : List Wildcards) : List String → Bool
  | [] => false
  | scope :: rest =>
    if wildcardHit ws scope then true else hasWildcardScope ws rest

/-- `actionsToCheck` (source lines 297-318): keeps, in input order, the
actions none of whose granted scopes is covered by a supplied wildcard. -/
def actionsToCheck (actions : List String) (permissions : PermMap)
    (ws : List Wildcards) : List String :=
  match actions with
  | [] => []
  | a :: rest =>
    if hasWildcardScope ws (scopesOf permissions a) then
      actionsToCheck rest permissions ws
    else
      a :: actionsToCheck rest permissions ws

/-! ## Clauses -/

/-- `clause`: a SQL fragment paired with its positional parameters. -/
structure clause where
  string : String
  params : List Param
deriving DecidableEq, Repr

/-! ## The legacy role filter -/

/-- `DashboardPermissionFilter` (source lines 20-26). The `Dialect`
collaborator is reduced to the one hook the filter uses, its
boolean-literal renderer `BooleanStr`. -/
structure DashboardPermissionFilter where
  OrgRole : String
  BooleanStr : Bool → String
  UserId : Int
  OrgId : Int
  PermissionLevel : Int

/-- `DashboardPermissionFilter.Where` (source lines 28-85). -/
def DashboardPermissionFilter.Where (d : DashboardPermissionFilter) :
    String × List Param :=
  if d.OrgRole = RoleAdmin then ("", [])
  else
    let okRoles : List Param :=
      [Param.pstr d.OrgRole] ++
        (if d.OrgRole = RoleEditor then [Param.pstr RoleViewer] else [])
    let falseStr := d.BooleanStr false
    let sql :=
      "(\n\t\tdashboard.id IN (\n\t\t\tSELECT distinct DashboardId from (\n\t\t\t\tSELECT d.id AS DashboardId\n\t\t\t\t\tFROM dashboard AS d\n\t\t\t\t\tLEFT JOIN dashboard_acl AS da ON\n\t\t\t\t\t\tda.dashboard_id = d.id OR\n\t\t\t\t\t\tda.dashboard_id = d.folder_id\n\t\t\t\t\tWHERE\n\t\t\t\t\t\td.org_id = ? AND\n\t\t\t\t\t\tda.permission >= ? AND\n\t\t\t\t\t\t(\n\t\t\t\t\t\t\tda.user_id = ? OR\n\t\t\t\t\t\t\tda.team_id IN (SELECT team_id from team_member AS tm WHERE tm.user_id = ?) OR\n\t\t\t\t\t\t\tda.role IN (?" ++
      strRepeat ",?" (okRoles.length - 1) ++
      ")\n\t\t\t\t\t\t)\n\t\t\t\tUNION\n\t\t\t\tSELECT d.id AS DashboardId\n\t\t\t\t\tFROM dashboard AS d\n\t\t\t\t\tLEFT JOIN dashboard AS folder on folder.id = d.folder_id\n\t\t\t\t\tLEFT JOIN dashboard_acl AS da ON\n\t\t\t\t\t\t(\n\t\t\t\t\t\t\t-- include default permissions -->\n\t\t\t\t\t\t\tda.org_id = -1 AND (\n\t\t\t\t\t\t\t  (folder.id IS NOT NULL AND folder.has_acl = " ++
      falseStr ++
      ") OR\n\t\t\t\t\t\t\t  (folder.id IS NULL AND d.has_acl = " ++
      falseStr ++
      ")\n\t\t\t\t\t\t\t)\n\t\t\t\t\t\t)\n\t\t\t\t\tWHERE\n\t\t\t\t\t\td.org_id = ? AND\n\t\t\t\t\t\tda.permission >= ? AND\n\t\t\t\t\t\t(\n\t\t\t\t\t\t\tda.user_id = ? OR\n\t\t\t\t\t\t\tda.role IN (?" ++
      strRepeat ",?" (okRoles.length - 1) ++
      ")\n\t\t\t\t\t\t)\n\t\t\t) AS a\n\t\t)\n\t)\n\t"
    let params : List Param :=
      [Param.pint d.OrgId, Param.pint d.PermissionLevel, Param.pint d.UserId,
        Param.pint d.UserId] ++ okRoles ++
      [Param.pint d.OrgId, Param.pint d.PermissionLevel, Param.pint d.UserId] ++
      okRoles
    (sql, params)

/-! ## The fine-grained permission filter -/

/-- `accessControlDashboardPermissionFilter` (source lines 92-101).
`features` is the feature-toggle collaborator (flag name ↦ enabled);
`userRolesFilter` is the external `accesscontrol.UserRolesFilter` role
resolver, an opaque collaborator per the spec: given organization, user,
teams and organization roles it returns a SQL fragment selecting the
applicable role ids together with that fragment's parameters. -/
structure accessControlDashboardPermissionFilter where
  user : Option SignedInUser
  dashboardActions : List String
  folderActions : List String
  features : String → Bool
  userRolesFilter : Int → Int → List Int → List String → String × List Param
  whereClause : clause
  recQueries : List clause

/-- `Where` (source lines 152-154). -/
def accessControlDashboardPermissionFilter.Where
    (f : accessControlDashboardPermissionFilter) : String × List Param :=
  (f.whereClause.string, f.whereClause.params)

/-- `addRecQry` (source lines 285-295): appends a named recursive CTE
definition whose seed membership is `whereUIDSelect`. (The Go function
deep-copies `whereParams` into the definition; lists are values here, so
the copy is implicit — the aliasing behaviour it prevents is modelled
separately below.) -/
def addRecQry (recQueries : List clause) (queryName : String)
    (whereUIDSelect : String) (whereParams : List Param) : List clause :=
  let s := queryName ++ " AS (\n\t\t\tSELECT uid, parent_uid, org_id FROM folder WHERE uid IN " ++
    whereUIDSelect ++
    "\n\t\t\tUNION ALL SELECT f.uid, f.parent_uid, f.org_id FROM folder f INNER JOIN " ++
    queryName ++ " r ON f.parent_uid = r.uid and f.org_id = r.org_id\n\t\t)"
  recQueries ++ [{ string := s, params := whereParams }]

/-- The action condition appended to a scope-membership subquery.  The
Go source repeats this block verbatim at its three subquery sites
(lines 181-188, 197-204, 238-245): a single equality for one action,
else an IN list over all actions with a grouped required-count check. -/
def actionFilter (toCheck : List String) : String × List Param :=
  if toCheck.length = 1 then
    (" AND action = ?", toCheck.map Param.pstr)
  else
    (" AND action IN (?" ++ strRepeat ", ?" (toCheck.length - 1) ++
       ") GROUP BY role_id, scope HAVING COUNT(action) = ?",
      toCheck.map Param.pstr ++ [Param.pint (toCheck.length : Int)])

/-- The dashboard-actions branch of `buildClauses` (source lines
173-221), run when the dashboard action set is non-empty.  Returns the
branch text, the parameters appended to `args`, and the updated
recursive-query list. -/
def dashboardBranch (rolesFilter : String) (params : List Param)
    (toCheck : List String) (nested : Bool) (recQueries : List clause) :
    String × List Param × List clause :=
  if toCheck.length > 0 then
    let af := actionFilter toCheck
    let b1 := "(dashboard.uid IN (SELECT substr(scope, 16) FROM permission WHERE scope LIKE \x27dashboards:uid:%\x27" ++
      rolesFilter ++ af.1 ++ ") AND NOT dashboard.is_folder)" ++
      " OR " ++ "(dashboard.folder_id IN (SELECT id FROM dashboard as d "
    let permSelector := "(SELECT substr(scope, 13) FROM permission WHERE scope LIKE \x27folders:uid:%\x27 " ++
      rolesFilter ++ af.1 ++ ")"
    let permSelectorArgs := params ++ af.2
    if nested then
      let recQueryName := "RecQry" ++ Nat.repr recQueries.length
      (b1 ++ ("WHERE d.uid IN (SELECT uid FROM " ++ recQueryName ++ ")") ++
         ") AND NOT dashboard.is_folder)",
        params ++ af.2,
        addRecQry recQueries recQueryName permSelector permSelectorArgs)
    else
      (b1 ++ ("WHERE d.uid IN " ++ permSelector) ++ ") AND NOT dashboard.is_folder)",
        params ++ af.2 ++ permSelectorArgs,
        recQueries)
  else
    ("NOT dashboard.is_folder", [], recQueries)

/-- The folder-actions branch of `buildClauses` (source lines 232-260),
run when the folder action set is non-empty (the " OR " separator of
line 229 is added by the caller). -/
def folderBranch (rolesFilter : String) (params : List Param)
    (toCheck : List String) (nested : Bool) (recQueries : List clause) :
    String × List Param × List clause :=
  if toCheck.length > 0 then
    let af := actionFilter toCheck
    let permSelector := "(SELECT substr(scope, 13) FROM permission WHERE scope LIKE \x27folders:uid:%\x27" ++
      rolesFilter ++ af.1 ++ ")"
    let permSelectorArgs := params ++ af.2
    if nested then
      let recQueryName := "RecQry" ++ Nat.repr recQueries.length
      ("(dashboard.uid IN " ++ ("(SELECT uid FROM " ++ recQueryName ++ ")") ++
         " AND dashboard.is_folder)",
        [],
        addRecQry recQueries recQueryName permSelector permSelectorArgs)
    else
      ("(dashboard.uid IN " ++ permSelector ++ " AND dashboard.is_folder)",
        permSelectorArgs,
        recQueries)
  else
    ("dashboard.is_folder", [], recQueries)

/-- `buildClauses` (source lines 156-265).  The guard of line 157
(`f.user == nil || f.user.Permissions == nil ||
f.user.Permissions[f.user.OrgID] == nil`) becomes the three leading
matches; the scratch `permSelector` builder the Go code resets between
the two branches is local to each branch function here. -/
def buildClauses (f : accessControlDashboardPermissionFilter) :
    accessControlDashboardPermissionFilter :=
  match f.user with
  | none => { f with whereClause := { string := "(1 = 0)", params := [] } }
  | some u =>
  match u.Permissions with
  | none => { f with whereClause := { string := "(1 = 0)", params := [] } }
  | some permsTable =>
  match lookupOrg permsTable u.OrgID with
  | none => { f with whereClause := { string := "(1 = 0)", params := [] } }
  | some permissions =>
    let dashWildcards := WildcardsFromKind ScopeDashboards
    let folderWildcards := WildcardsFromKind ScopeFolders
    let fp := f.userRolesFilter u.OrgID u.UserID u.Teams (GetOrgRoles u)
    let rolesFilter := " AND role_id IN(SELECT id FROM role " ++ fp.1 ++ ") "
    let nested := f.features FlagNestedFolders
    let db :=
      if f.dashboardActions.length > 0 then
        dashboardBranch rolesFilter fp.2
          (actionsToCheck f.dashboardActions permissions
            [dashWildcards, folderWildcards])
          nested f.recQueries
      else ("", [], f.recQueries)
    let fb :=
      if f.folderActions.length > 0 then
        let sep := if f.dashboardActions.length > 0 then " OR " else ""
        let r := folderBranch rolesFilter fp.2
          (actionsToCheck f.folderActions permissions [folderWildcards])
          nested db.2.2
        (sep ++ r.1, r.2.1, r.2.2)
      else ("", [], db.2.2)
    { f with
      whereClause := { string := "(" ++ db.1 ++ fb.1 ++ ")",
                       params := db.2.1 ++ fb.2.1 },
      recQueries := fb.2.2 }

/-- `NewAccessControlDashboardPermissionFilter` (source lines 104-147):
derives the per-kind action sets from the query type and permission
level, then compiles the clauses. -/
def NewAccessControlDashboardPermissionFilter (user : Option SignedInUser)
    (permissionLevel : Int) (queryType : String) (features : String → Bool)
    (userRolesFilter : Int → Int → List Int → List String → String × List Param) :
    accessControlDashboardPermissionFilter :=
  let needEdit := permissionLevel > PERMISSION_VIEW
  let folderActions : List String :=
    if queryType = TypeFolder then
      [ActionFoldersRead] ++ (if needEdit then [ActionDashboardsCreate] else [])
    else if queryType = TypeDashboard then
      []
    else if queryType = TypeAlertFolder then
      [ActionFoldersRead, ActionAlertingRuleRead] ++
        (if needEdit then [ActionAlertingRuleCreate] else [])
    else
      [ActionFoldersRead] ++ (if needEdit then [ActionDashboardsCreate] else [])
  let dashboardActions : List String :=
    if queryType = TypeFolder then
      []
    else if queryType = TypeDashboard then
      [ActionDashboardsRead] ++ (if needEdit then [ActionDashboardsWrite] else [])
    else if queryType = TypeAlertFolder then
      []
    else
      [ActionDashboardsRead] ++ (if needEdit then [ActionDashboardsWrite] else [])
  buildClauses
    { user := user, dashboardActions := dashboardActions,
      folderActions := folderActions, features := features,
      userRolesFilter := userRolesFilter,
      whereClause := { string := "", params := [] }, recQueries := [] }

/-- `With` (source lines 269-283): the comma-joined recursive preamble. -/
def accessControlDashboardPermissionFilter.With
    (f : accessControlDashboardPermissionFilter) : String × List Param :=
  match f.recQueries with
  | [] => ("", [])
  | r0 :: rest =>
    rest.foldl (fun acc r => (acc.1 ++ "," ++ r.string, acc.2 ++ r.params))
      ("WITH RECURSIVE " ++ r0.string, r0.params)

/-! ## Placeholder counting lemmas -/

theorem countQ_append (a b : String) : countQ (a ++ b) = countQ a + countQ b := by
  simp [countQ, String.toList, String.data_append, List.countP_append]

theorem countQ_strRepeat (s : String) (n : Nat) :
    countQ (strRepeat s n) = n * countQ s := by
  induction n with
  | zero => rw [strRepeat, Nat.zero_mul]; rfl
  | succ n ih =>
    rw [strRepeat, countQ_append, ih, Nat.succ_mul]
    omega

theorem digitChar_ne_qmark (n : Nat) : Nat.digitChar n ≠ '?' := by
  by_cases h : n < 16
  · interval_cases n <;> decide
  · unfold Nat.digitChar
    have h0 : ¬ n = 0 := by omega
    have h1 : ¬ n = 1 := by omega
    have h2 : ¬ n = 2 := by omega
    have h3 : ¬ n = 3 := by omega
    have h4 : ¬ n = 4 := by omega
    have h5 : ¬ n = 5 := by omega
    have h6 : ¬ n = 6 := by omega
    have h7 : ¬ n = 7 := by omega
    have h8 : ¬ n = 8 := by omega
    have h9 : ¬ n = 9 := by omega
    have h10 : ¬ n = 10 := by omega
    have h11 : ¬ n = 11 := by omega
    have h12 : ¬ n = 12 := by omega
    have h13 : ¬ n = 13 := by omega
    have h14 : ¬ n = 14 := by omega
    have h15 : ¬ n = 15 := by omega
    simp only [if_neg h0, if_neg h1, if_neg h2, if_neg h3, if_neg h4, if_neg h5,
      if_neg h6, if_neg h7, if_neg h8, if_neg h9, if_neg h10, if_neg h11,
      if_neg h12, if_neg h13, if_neg h14, if_neg h15]
    decide

theorem toDigitsCore_ne_qmark (b : Nat) (fuel : Nat) :
    ∀ (n : Nat) (ds : List Char), (∀ c ∈ ds, c ≠ '?') →
      ∀ c ∈ Nat.toDigitsCore b fuel n ds, c ≠ '?' := by
  induction fuel with
  | zero =>
    intro n ds h c hc
    rw [Nat.toDigitsCore] at hc
    exact h c hc
  | succ fuel ih =>
    intro n ds h c hc
    rw [Nat.toDigitsCore] at hc
    by_cases hz : n / b = 0
    · rw [if_pos hz] at hc
      rcases List.mem_cons.mp hc with h1 | h2
      · rw [h1]; exact digitChar_ne_qmark _
      · exact h c h2
    · rw [if_neg hz] at hc
      refine ih (n / b) (Nat.digitChar (n % b) :: ds) ?_ c hc
      intro x hx
      rcases List.mem_cons.mp hx with h1 | h2
      · rw [h1]; exact digitChar_ne_qmark _
      · exact h x h2

theorem countQ_natRepr (n : Nat) : countQ (Nat.repr n) = 0 := by
  have h : ∀ c ∈ Nat.toDigits 10 n, c ≠ '?' := by
    rw [Nat.toDigits]
    exact toDigitsCore_ne_qmark 10 (n + 1) n [] (by intro c hc; cases hc)
  rw [countQ, List.countP_eq_zero]
  intro c hc
  have hc' : c ∈ Nat.toDigits 10 n := hc
  simpa using h c hc'

/-- Total placeholder count of a list of clauses. -/
def sumQ (l : List clause) : Nat := (l.map (fun c => countQ c.string)).sum

/-- Total parameter count of a list of clauses. -/
def sumP (l : List clause) : Nat := (l.map (fun c => c.params.length)).sum

theorem sumQ_append (a b : List clause) : sumQ (a ++ b) = sumQ a + sumQ b := by
  simp [sumQ]

theorem sumP_append (a b : List clause) : sumP (a ++ b) = sumP a + sumP b := by
  simp [sumP]

theorem sumQ_single (c : clause) : sumQ [c] = countQ c.string := by
  simp [sumQ]

theorem sumP_single (c : clause) : sumP [c] = c.params.length := by
  simp [sumP]

/-- The action condition of a non-empty needs-check set has one
placeholder and one parameter for a single action, and `k + 1` of each
for `k > 1` actions (the `k` action names and the required count). -/
theorem actionFilter_spec (tc : List String) (h : tc ≠ []) :
    countQ (actionFilter tc).1 = (if tc.length = 1 then 1 else tc.length + 1) ∧
      (actionFilter tc).2.length = (if tc.length = 1 then 1 else tc.length + 1) := by
  have hpos : 0 < tc.length := List.length_pos.mpr h
  unfold actionFilter
  by_cases h1 : tc.length = 1
  · rw [if_pos h1, if_pos h1]
    constructor
    · show countQ " AND action = ?" = 1
      decide
    · show (tc.map Param.pstr).length = 1
      simp [h1]
  · rw [if_neg h1, if_neg h1]
    have e1 : countQ " AND action IN (?" = 1 := by decide
    have e2 : countQ ", ?" = 1 := by decide
    have e3 : countQ ") GROUP BY role_id, scope HAVING COUNT(action) = ?" = 1 := by
      decide
    constructor
    · show countQ (" AND action IN (?" ++ strRepeat ", ?" (tc.length - 1) ++
        ") GROUP BY role_id, scope HAVING COUNT(action) = ?") = tc.length + 1
      simp only [countQ_append, countQ_strRepeat, e1, e2, e3]
      omega
    · show (tc.map Param.pstr ++ [Param.pint (tc.length : Int)]).length = tc.length + 1
      simp

theorem actionFilter_countQ (tc : List String) (h : tc ≠ []) :
    countQ (actionFilter tc).1 = (actionFilter tc).2.length := by
  rw [(actionFilter_spec tc h).1, (actionFilter_spec tc h).2]

/-- The dashboard branch keeps placeholders and parameters in step:
the placeholders of its text plus those of any captured recursive query
equal the parameters it appends plus those of the captured query. -/
theorem dashboardBranch_ok (rf : String) (ps : List Param) (tc : List String)
    (n : Bool) (rq : List clause) (hrf : countQ rf = ps.length) :
    countQ (dashboardBranch rf ps tc n rq).1
        + sumQ (dashboardBranch rf ps tc n rq).2.2 + sumP rq
      = (dashboardBranch rf ps tc n rq).2.1.length
        + sumP (dashboardBranch rf ps tc n rq).2.2 + sumQ rq := by
  have e1 : countQ "(dashboard.uid IN (SELECT substr(scope, 16) FROM permission WHERE scope LIKE \x27dashboards:uid:%\x27" = 0 := by
    decide
  have e2 : countQ ") AND NOT dashboard.is_folder)" = 0 := by decide
  have e3 : countQ " OR " = 0 := by decide
  have e4 : countQ "(dashboard.folder_id IN (SELECT id FROM dashboard as d " = 0 := by
    decide
  have e5 : countQ "(SELECT substr(scope, 13) FROM permission WHERE scope LIKE \x27folders:uid:%\x27 " = 0 := by
    decide
  have e6 : countQ ")" = 0 := by decide
  have e7 : countQ "WHERE d.uid IN (SELECT uid FROM " = 0 := by decide
  have e8 : countQ "WHERE d.uid IN " = 0 := by decide
  have e9 : countQ "RecQry" = 0 := by decide
  have e10 : countQ " AS (\n\t\t\tSELECT uid, parent_uid, org_id FROM folder WHERE uid IN " = 0 := by
    decide
  have e11 : countQ "\n\t\t\tUNION ALL SELECT f.uid, f.parent_uid, f.org_id FROM folder f INNER JOIN " = 0 := by
    decide
  have e12 : countQ " r ON f.parent_uid = r.uid and f.org_id = r.org_id\n\t\t)" = 0 := by
    decide
  by_cases htc : tc.length > 0
  · have hne : tc ≠ [] := by
      cases tc
      · simp at htc
      · simp
    have haf := actionFilter_countQ tc hne
    cases n with
    | false =>
      simp only [dashboardBranch, if_pos htc, Bool.false_eq_true, if_false,
        countQ_append, addRecQry, sumQ_append, sumP_append, List.length_append,
        e1, e2, e3, e4, e5, e6, e8, hrf, haf]
      omega
    | true =>
      simp only [dashboardBranch, if_pos htc, if_true, countQ_append,
        addRecQry, sumQ_append, sumP_append, sumQ_single, sumP_single,
        List.length_append, List.length_nil, countQ_natRepr,
        e1, e2, e3, e4, e5, e6, e7, e9, e10, e11, e12, hrf, haf]
      omega
  · simp only [dashboardBranch, if_neg htc]
    have : countQ "NOT dashboard.is_folder" = 0 := by decide
    simp [this]
    omega

/-- The folder branch keeps placeholders and parameters in step. -/
theorem folderBranch_ok (rf : String) (ps : List Param) (tc : List String)
    (n : Bool) (rq : List clause) (hrf : countQ rf = ps.length) :
    countQ (folderBranch rf ps tc n rq).1
        + sumQ (folderBranch rf ps tc n rq).2.2 + sumP rq
      = (folderBranch rf ps tc n rq).2.1.length
        + sumP (folderBranch rf ps tc n rq).2.2 + sumQ rq := by
  have e1 : countQ "(dashboard.uid IN " = 0 := by decide
  have e2 : countQ "(SELECT substr(scope, 13) FROM permission WHERE scope LIKE \x27folders:uid:%\x27" = 0 := by
    decide
  have e3 : countQ ")" = 0 := by decide
  have e4 : countQ "(SELECT uid FROM " = 0 := by decide
  have e5 : countQ " AND dashboard.is_folder)" = 0 := by decide
  have e6 : countQ "RecQry" = 0 := by decide
  have e7 : countQ " AS (\n\t\t\tSELECT uid, parent_uid, org_id FROM folder WHERE uid IN " = 0 := by
    decide
  have e8 : countQ "\n\t\t\tUNION ALL SELECT f.uid, f.parent_uid, f.org_id FROM folder f INNER JOIN " = 0 := by
    decide
  have e9 : countQ " r ON f.parent_uid = r.uid and f.org_id = r.org_id\n\t\t)" = 0 := by
    decide
  by_cases htc : tc.length > 0
  · have hne : tc ≠ [] := by
      cases tc
      · simp at htc
      · simp
    have haf := actionFilter_countQ tc hne
    cases n with
    | false =>
      simp only [folderBranch, if_pos htc, Bool.false_eq_true, if_false,
        countQ_append, sumQ_append, sumP_append, List.length_append,
        e1, e2, e3, e5, hrf, haf]
      omega
    | true =>
      simp only [folderBranch, if_pos htc, if_true, countQ_append, addRecQry,
        sumQ_append, sumP_append, sumQ_single, sumP_single,
        List.length_append, List.length_nil, countQ_natRepr,
        e1, e2, e3, e4, e5, e6, e7, e8, e9, hrf, haf]
      omega
  · simp only [folderBranch, if_neg htc]
    have : countQ "dashboard.is_folder" = 0 := by decide
    simp [this]
    omega

theorem sumQ_nil : sumQ [] = 0 := rfl

theorem sumP_nil : sumP [] = 0 := rfl

theorem sumQ_cons (c : clause) (l : List clause) :
    sumQ (c :: l) = countQ c.string + sumQ l := by
  simp [sumQ]

theorem sumP_cons (c : clause) (l : List clause) :
    sumP (c :: l) = c.params.length + sumP l := by
  simp [sumP]

theorem with_foldl (qs : List clause) (s : String) (p : List Param) :
    countQ (qs.foldl (fun acc r => (acc.1 ++ "," ++ r.string, acc.2 ++ r.params))
          (s, p)).1
        = countQ s + sumQ qs ∧
      (qs.foldl (fun acc r => (acc.1 ++ "," ++ r.string, acc.2 ++ r.params))
          (s, p)).2.length
        = p.length + sumP qs := by
  induction qs generalizing s p with
  | nil => simp [sumQ_nil, sumP_nil]
  | cons q rest ih =>
    have h := ih (s ++ "," ++ q.string) (p ++ q.params)
    have ec : countQ "," = 0 := by decide
    constructor
    · rw [List.foldl_cons]
      rw [h.1, countQ_append, countQ_append, sumQ_cons, ec]
      omega
    · rw [List.foldl_cons]
      rw [h.2, List.length_append, sumP_cons]
      omega

/-- `With` concatenates exactly the placeholders and parameters of the
collected recursive queries. -/
theorem With_ok (f : accessControlDashboardPermissionFilter) :
    countQ f.With.1 = sumQ f.recQueries ∧
      f.With.2.length = sumP f.recQueries := by
  unfold accessControlDashboardPermissionFilter.With
  cases hr : f.recQueries with
  | nil =>
    constructor
    · rw [sumQ_nil]; rfl
    · rw [sumP_nil]; rfl
  | cons r0 rest =>
    have h := with_foldl rest ("WITH RECURSIVE " ++ r0.string) r0.params
    have ew : countQ "WITH RECURSIVE " = 0 := by decide
    constructor
    · rw [h.1, countQ_append, sumQ_cons, ew]
      omega
    · rw [h.2, sumP_cons]

/-- The compiled where clause and the collected recursive queries keep
placeholders and parameters in step. -/
theorem buildClauses_ok (f : accessControlDashboardPermissionFilter)
    (hrf : ∀ o uid t r, countQ (f.userRolesFilter o uid t r).1
      = (f.userRolesFilter o uid t r).2.length)
    (hrq : f.recQueries = []) :
    countQ (buildClauses f).whereClause.string + sumQ (buildClauses f).recQueries
      = (buildClauses f).whereClause.params.length
        + sumP (buildClauses f).recQueries := by
  have ez : countQ "(1 = 0)" = 0 := by decide
  have eo : countQ "(" = 0 := by decide
  have ecl : countQ ")" = 0 := by decide
  have eor : countQ " OR " = 0 := by decide
  have eem : countQ "" = 0 := by decide
  cases hu : f.user with
  | none =>
    simp only [buildClauses, hu, hrq, sumQ_nil, sumP_nil, ez, List.length_nil]
  | some u =>
    cases hP : u.Permissions with
    | none =>
      simp only [buildClauses, hu, hP, hrq, sumQ_nil, sumP_nil, ez,
        List.length_nil]
    | some permsTable =>
      cases hL : lookupOrg permsTable u.OrgID with
      | none =>
        simp only [buildClauses, hu, hP, hL, hrq, sumQ_nil, sumP_nil, ez,
          List.length_nil]
      | some permissions =>
        have a1 : countQ " AND role_id IN(SELECT id FROM role " = 0 := by decide
        have a2 : countQ ") " = 0 := by decide
        have hrf2 : countQ (" AND role_id IN(SELECT id FROM role " ++
            (f.userRolesFilter u.OrgID u.UserID u.Teams (GetOrgRoles u)).1 ++ ") ")
            = (f.userRolesFilter u.OrgID u.UserID u.Teams (GetOrgRoles u)).2.length := by
          rw [countQ_append, countQ_append, a1, a2, hrf]
          omega
        simp only [buildClauses, hu, hP, hL, hrq]
        split_ifs with hda hfa hfa <;>
          simp only [countQ_append, List.length_append, List.length_nil,
            eo, ecl, eor, eem, sumQ_nil, sumP_nil]
        · have hd := dashboardBranch_ok
            (" AND role_id IN(SELECT id FROM role " ++
              (f.userRolesFilter u.OrgID u.UserID u.Teams (GetOrgRoles u)).1 ++ ") ")
            (f.userRolesFilter u.OrgID u.UserID u.Teams (GetOrgRoles u)).2
            (actionsToCheck f.dashboardActions permissions
              [WildcardsFromKind ScopeDashboards, WildcardsFromKind ScopeFolders])
            (f.features FlagNestedFolders) [] hrf2
          have hf2 := folderBranch_ok
            (" AND role_id IN(SELECT id FROM role " ++
              (f.userRolesFilter u.OrgID u.UserID u.Teams (GetOrgRoles u)).1 ++ ") ")
            (f.userRolesFilter u.OrgID u.UserID u.Teams (GetOrgRoles u)).2
            (actionsToCheck f.folderActions permissions [WildcardsFromKind ScopeFolders])
            (f.features FlagNestedFolders)
            ((dashboardBranch
              (" AND role_id IN(SELECT id FROM role " ++
                (f.userRolesFilter u.OrgID u.UserID u.Teams (GetOrgRoles u)).1 ++ ") ")
              (f.userRolesFilter u.OrgID u.UserID u.Teams (GetOrgRoles u)).2
              (actionsToCheck f.dashboardActions permissions
                [WildcardsFromKind ScopeDashboards, WildcardsFromKind ScopeFolders])
              (f.features FlagNestedFolders) []).2.2) hrf2
          rw [sumQ_nil, sumP_nil] at hd
          omega
        · have hd := dashboardBranch_ok
            (" AND role_id IN(SELECT id FROM role " ++
              (f.userRolesFilter u.OrgID u.UserID u.Teams (GetOrgRoles u)).1 ++ ") ")
            (f.userRolesFilter u.OrgID u.UserID u.Teams (GetOrgRoles u)).2
            (actionsToCheck f.dashboardActions permissions
              [WildcardsFromKind ScopeDashboards, WildcardsFromKind ScopeFolders])
            (f.features FlagNestedFolders) [] hrf2
          rw [sumQ_nil, sumP_nil] at hd
          omega
        · have hf2 := folderBranch_ok
            (" AND role_id IN(SELECT id FROM role " ++
              (f.userRolesFilter u.OrgID u.UserID u.Teams (GetOrgRoles u)).1 ++ ") ")
            (f.userRolesFilter u.OrgID u.UserID u.Teams (GetOrgRoles u)).2
            (actionsToCheck f.folderActions permissions [WildcardsFromKind ScopeFolders])
            (f.features FlagNestedFolders) [] hrf2
          rw [sumQ_nil, sumP_nil] at hf2
          omega

/-- Combined preamble/predicate balance for a freshly compiled filter. -/
theorem composed_ok (f : accessControlDashboardPermissionFilter)
    (hrf : ∀ o uid t r, countQ (f.userRolesFilter o uid t r).1
      = (f.userRolesFilter o uid t r).2.length)
    (hrq : f.recQueries = []) :
    countQ ((buildClauses f).With.1 ++ (buildClauses f).Where.1)
      = ((buildClauses f).With.2 ++ (buildClauses f).Where.2).length := by
  have h1 := buildClauses_ok f hrf hrq
  have h2 := With_ok (buildClauses f)
  rw [countQ_append, List.length_append, h2.1, h2.2]
  simp only [accessControlDashboardPermissionFilter.Where]
  omega

/-! ## Claim theorems -/

/-- C1: for every valid input (any user context, permission level, query
type and nested-folder flag setting, and any role-resolver fragment whose
own placeholders match its own parameters), the number of `?`
placeholders in the concatenation of the `With()` preamble and the
`Where()` predicate equals the number of parameters returned by `With()`
plus `Where()`; and for the legacy filter (whose dialect boolean literal
contains no placeholder), the placeholders of the `Where()` text equal
the length of its parameter list. -/
theorem C1_placeholder_counts_match_parameters :
    (∀ (user : Option SignedInUser) (permissionLevel : Int) (queryType : String)
        (features : String → Bool)
        (urf : Int → Int → List Int → List String → String × List Param),
      (∀ o uid t r, countQ (urf o uid t r).1 = (urf o uid t r).2.length) →
      countQ ((NewAccessControlDashboardPermissionFilter user permissionLevel
            queryType features urf).With.1 ++
          (NewAccessControlDashboardPermissionFilter user permissionLevel
            queryType features urf).Where.1)
        = ((NewAccessControlDashboardPermissionFilter user permissionLevel
            queryType features urf).With.2 ++
          (NewAccessControlDashboardPermissionFilter user permissionLevel
            queryType features urf).Where.2).length) ∧
    ∀ d : DashboardPermissionFilter, countQ (d.BooleanStr false) = 0 →
      countQ d.Where.1 = d.Where.2.length := by
  constructor
  · intro user permissionLevel queryType features urf hurf
    unfold NewAccessControlDashboardPermissionFilter
    exact composed_ok _ hurf rfl
  · intro d hbs
    unfold DashboardPermissionFilter.Where
    by_cases hadm : d.OrgRole = RoleAdmin
    · rw [if_pos hadm]
      rfl
    · rw [if_neg hadm]
      by_cases hed : d.OrgRole = RoleEditor
      · simp only [if_pos hed, countQ_append, countQ_strRepeat, hbs,
          List.length_append, List.length_cons, List.length_nil]
        decide
      · simp only [if_neg hed, countQ_append, countQ_strRepeat, hbs,
          List.length_append, List.length_cons, List.length_nil]
        decide

/-- C1 witness: a concrete mixed-type compilation and a concrete legacy
filter, both with balanced placeholder/parameter counts. -/
theorem C1_placeholder_counts_match_parameters_witness :
    countQ ((NewAccessControlDashboardPermissionFilter
          (some ⟨7, 2, "Viewer", [3], some [(2, [("dashboards:read",
            ["dashboards:uid:x"])])]⟩) 2 "" (fun _ => true)
          (fun _ _ _ _ => ("WHERE ur.user_id = ?", [Param.pint 7]))).With.1 ++
        (NewAccessControlDashboardPermissionFilter
          (some ⟨7, 2, "Viewer", [3], some [(2, [("dashboards:read",
            ["dashboards:uid:x"])])]⟩) 2 "" (fun _ => true)
          (fun _ _ _ _ => ("WHERE ur.user_id = ?", [Param.pint 7]))).Where.1)
      = ((NewAccessControlDashboardPermissionFilter
          (some ⟨7, 2, "Viewer", [3], some [(2, [("dashboards:read",
            ["dashboards:uid:x"])])]⟩) 2 "" (fun _ => true)
          (fun _ _ _ _ => ("WHERE ur.user_id = ?", [Param.pint 7]))).With.2 ++
        (NewAccessControlDashboardPermissionFilter
          (some ⟨7, 2, "Viewer", [3], some [(2, [("dashboards:read",
            ["dashboards:uid:x"])])]⟩) 2 "" (fun _ => true)
          (fun _ _ _ _ => ("WHERE ur.user_id = ?", [Param.pint 7]))).Where.2).length ∧
    countQ (DashboardPermissionFilter.Where
        ⟨"Editor", fun _ => "0", 7, 2, 1⟩).1
      = (DashboardPermissionFilter.Where
        ⟨"Editor", fun _ => "0", 7, 2, 1⟩).2.length :=
  ⟨C1_placeholder_counts_match_parameters.1 _ 2 "" (fun _ => true)
      (fun _ _ _ _ => ("WHERE ur.user_id = ?", [Param.pint 7]))
      (fun _ _ _ _ => rfl),
    C1_placeholder_counts_match_parameters.2 _ (by decide)⟩

/-- C8: the legacy filter returns an empty predicate and no parameters
for the Admin organization role, whatever the permission level,
organization, user and dialect. -/
theorem C8_admin_bypasses_legacy_filter (bs : Bool → String)
    (uid oid lvl : Int) :
    DashboardPermissionFilter.Where ⟨RoleAdmin, bs, uid, oid, lvl⟩ = ("", []) := by
  unfold DashboardPermissionFilter.Where
  rw [if_pos rfl]

theorem buildClauses_folderActions (f : accessControlDashboardPermissionFilter) :
    (buildClauses f).folderActions = f.folderActions := by
  cases hu : f.user with
  | none => simp [buildClauses, hu]
  | some u =>
    cases hP : u.Permissions with
    | none => simp [buildClauses, hu, hP]
    | some permsTable =>
      cases hL : lookupOrg permsTable u.OrgID with
      | none => simp [buildClauses, hu, hP, hL]
      | some permissions => simp [buildClauses, hu, hP, hL]

theorem buildClauses_dashboardActions (f : accessControlDashboardPermissionFilter) :
    (buildClauses f).dashboardActions = f.dashboardActions := by
  cases hu : f.user with
  | none => simp [buildClauses, hu]
  | some u =>
    cases hP : u.Permissions with
    | none => simp [buildClauses, hu, hP]
    | some permsTable =>
      cases hL : lookupOrg permsTable u.OrgID with
      | none => simp [buildClauses, hu, hP, hL]
      | some permissions => simp [buildClauses, hu, hP, hL]

/-- C3: a user context whose permission index has no entry for the
user's organization compiles to the always-false predicate `(1 = 0)`
with no parameters, whatever the query type and permission level. -/
theorem C3_missing_org_entry_fails_closed (user : SignedInUser)
    (permsTable : List (Int × PermMap)) (permissionLevel : Int)
    (queryType : String) (features : String → Bool)
    (urf : Int → Int → List Int → List String → String × List Param)
    (hP : user.Permissions = some permsTable)
    (hL : lookupOrg permsTable user.OrgID = none) :
    (NewAccessControlDashboardPermissionFilter (some user) permissionLevel
        queryType features urf).Where = ("(1 = 0)", []) := by
  unfold NewAccessControlDashboardPermissionFilter
  simp [buildClauses, hP, hL, accessControlDashboardPermissionFilter.Where]

/-- C3 witness: a concrete user whose permission index only has an entry
for a different organization. -/
theorem C3_missing_org_entry_fails_closed_witness :
    (NewAccessControlDashboardPermissionFilter
        (some ⟨7, 2, "Viewer", [], some [(5, [("dashboards:read", ["*"])])]⟩)
        4 "dash-db" (fun _ => true)
        (fun _ _ _ _ => ("x = ?", [Param.pint 0]))).Where = ("(1 = 0)", []) :=
  C3_missing_org_entry_fails_closed _ _ 4 "dash-db" (fun _ => true)
    (fun _ _ _ _ => ("x = ?", [Param.pint 0])) rfl (by decide)

/-- C9: a nil user, or a user whose permission map is nil, compiles to
the same fail-closed `(1 = 0)` predicate with no parameters; the
compilation is total on these inputs. -/
theorem C9_nil_user_or_nil_permissions_fail_closed :
    (∀ (permissionLevel : Int) (queryType : String) (features : String → Bool)
        (urf : Int → Int → List Int → List String → String × List Param),
      (NewAccessControlDashboardPermissionFilter none permissionLevel queryType
          features urf).Where = ("(1 = 0)", [])) ∧
    ∀ (uid oid : Int) (role : String) (teams : List Int)
        (permissionLevel : Int) (queryType : String) (features : String → Bool)
        (urf : Int → Int → List Int → List String → String × List Param),
      (NewAccessControlDashboardPermissionFilter
          (some ⟨uid, oid, role, teams, none⟩) permissionLevel queryType
          features urf).Where = ("(1 = 0)", []) := by
  constructor
  · intro permissionLevel queryType features urf
    unfold NewAccessControlDashboardPermissionFilter
    simp [buildClauses, accessControlDashboardPermissionFilter.Where]
  · intro uid oid role teams permissionLevel queryType features urf
    unfold NewAccessControlDashboardPermissionFilter
    simp [buildClauses, accessControlDashboardPermissionFilter.Where]

/-- C10: any query type other than the folder, dashboard and
alert-folder types derives exactly the mixed-case action sets —
folders:read (plus dashboards:create above view level) for folders, and
dashboards:read (plus dashboards:write above view level) for
dashboards. -/
theorem C10_unknown_query_type_behaves_as_mixed (user : Option SignedInUser)
    (permissionLevel : Int) (queryType : String) (features : String → Bool)
    (urf : Int → Int → List Int → List String → String × List Param)
    (h1 : queryType ≠ TypeFolder) (h2 : queryType ≠ TypeDashboard)
    (h3 : queryType ≠ TypeAlertFolder) :
    (NewAccessControlDashboardPermissionFilter user permissionLevel queryType
        features urf).folderActions
      = [ActionFoldersRead] ++
          (if permissionLevel > PERMISSION_VIEW then [ActionDashboardsCreate]
            else []) ∧
    (NewAccessControlDashboardPermissionFilter user permissionLevel queryType
        features urf).dashboardActions
      = [ActionDashboardsRead] ++
          (if permissionLevel > PERMISSION_VIEW then [ActionDashboardsWrite]
            else []) := by
  unfold NewAccessControlDashboardPermissionFilter
  rw [buildClauses_folderActions, buildClauses_dashboardActions]
  simp [if_neg h1, if_neg h2, if_neg h3]

/-- C10 witness: the unrecognized query type "frobnicate" at an editing
permission level yields the mixed action sets. -/
theorem C10_unknown_query_type_behaves_as_mixed_witness :
    (NewAccessControlDashboardPermissionFilter none 2 "frobnicate"
        (fun _ => false) (fun _ _ _ _ => ("", []))).folderActions
      = [ActionFoldersRead] ++
          (if (2 : Int) > PERMISSION_VIEW then [ActionDashboardsCreate]
            else []) ∧
    (NewAccessControlDashboardPermissionFilter none 2 "frobnicate"
        (fun _ => false) (fun _ _ _ _ => ("", []))).dashboardActions
      = [ActionDashboardsRead] ++
          (if (2 : Int) > PERMISSION_VIEW then [ActionDashboardsWrite]
            else []) :=
  C10_unknown_query_type_behaves_as_mixed none 2 "frobnicate" (fun _ => false)
    (fun _ _ _ _ => ("", [])) (by decide) (by decide) (by decide)

theorem wildcardHit_iff (ws : List Wildcards) (s : String) :
    wildcardHit ws s = true ↔ ∃ w ∈ ws, w.Contains s = true := by
  induction ws with
  | nil => simp [wildcardHit]
  | cons w rest ih =>
    rw [wildcardHit]
    by_cases h : w.Contains s = true
    · simp [h]
    · simp [h, ih]

theorem hasWildcardScope_iff (ws : List Wildcards) (l : List String) :
    hasWildcardScope ws l = true ↔ ∃ s ∈ l, ∃ w ∈ ws, w.Contains s = true := by
  induction l with
  | nil => simp [hasWildcardScope]
  | cons s rest ih =>
    rw [hasWildcardScope]
    by_cases h : wildcardHit ws s = true
    · simp [h, (wildcardHit_iff ws s).mp h]
    · have h2 := (not_iff_not.mpr (wildcardHit_iff ws s)).mp h
      simp only [h, if_false, Bool.false_eq_true, ih, List.mem_cons]
      constructor
      · rintro ⟨x, hx, hw⟩
        exact ⟨x, Or.inr hx, hw⟩
      · rintro ⟨x, hx | hx, hw⟩
        · exact absurd (hx ▸ hw) h2
        · exact ⟨x, hx, hw⟩

theorem actionsToCheck_eq_filter (actions : List String) (permissions : PermMap)
    (ws : List Wildcards) :
    actionsToCheck actions permissions ws
      = actions.filter
          (fun a => !(hasWildcardScope ws (scopesOf permissions a))) := by
  induction actions with
  | nil => rfl
  | cons a rest ih =>
    rw [actionsToCheck, List.filter_cons]
    cases h : hasWildcardScope ws (scopesOf permissions a) with
    | false => simp [h, ih]
    | true => simp [h, ih]

/-- C4: `actionsToCheck` returns exactly the actions for which no
granted scope is contained by any supplied wildcard, in input order
(it is the order-preserving filter of the input list); an action is
dropped exactly when one of its granted scopes is wildcard-covered. -/
theorem C4_actionsToCheck_keeps_uncovered_actions (actions : List String)
    (permissions : PermMap) (ws : List Wildcards) :
    actionsToCheck actions permissions ws
      = actions.filter (fun a =>
          decide (¬ ∃ s ∈ scopesOf permissions a, ∃ w ∈ ws,
            w.Contains s = true)) := by
  rw [actionsToCheck_eq_filter]
  apply List.filter_congr
  intro a _
  have hiff := hasWildcardScope_iff ws (scopesOf permissions a)
  cases h : hasWildcardScope ws (scopesOf permissions a) with
  | false =>
    rw [h] at hiff
    simp only [Bool.false_eq_true, false_iff] at hiff
    simp [hiff]
  | true =>
    rw [h] at hiff
    simp only [true_iff] at hiff
    simp [hiff]

theorem go_prepend (l : List String) :
    ∀ (pre x s : String),
      String.intercalate.go (pre ++ x) s l
        = pre ++ String.intercalate.go x s l := by
  induction l with
  | nil =>
    intro pre x s
    rfl
  | cons a as ih =>
    intro pre x s
    show String.intercalate.go (pre ++ x ++ s ++ a) s as
      = pre ++ String.intercalate.go (x ++ s ++ a) s as
    rw [String.append_assoc, String.append_assoc, ← ih]
    rw [String.append_assoc]

theorem with_foldl_go (qs : List clause) :
    ∀ (s : String) (p : List Param),
      (qs.foldl (fun acc r => (acc.1 ++ "," ++ r.string, acc.2 ++ r.params))
          (s, p)).1
        = String.intercalate.go s "," (qs.map clause.string) := by
  induction qs with
  | nil =>
    intro s p
    rfl
  | cons q rest ih =>
    intro s p
    rw [List.foldl_cons, List.map_cons]
    show (rest.foldl (fun acc r => (acc.1 ++ "," ++ r.string, acc.2 ++ r.params))
        (s ++ "," ++ q.string, p ++ q.params)).1
      = String.intercalate.go (s ++ "," ++ q.string) "," (rest.map clause.string)
    exact ih (s ++ "," ++ q.string) (p ++ q.params)

theorem with_foldl_params (qs : List clause) :
    ∀ (s : String) (p : List Param),
      (qs.foldl (fun acc r => (acc.1 ++ "," ++ r.string, acc.2 ++ r.params))
          (s, p)).2
        = p ++ (qs.map clause.params).flatten := by
  induction qs with
  | nil =>
    intro s p
    simp
  | cons q rest ih =>
    intro s p
    rw [List.foldl_cons, List.map_cons, List.flatten_cons]
    show (rest.foldl (fun acc r => (acc.1 ++ "," ++ r.string, acc.2 ++ r.params))
        (s ++ "," ++ q.string, p ++ q.params)).2
      = p ++ (q.params ++ (rest.map clause.params).flatten)
    rw [ih (s ++ "," ++ q.string) (p ++ q.params), List.append_assoc]

/-- C6: `With()` is empty with an empty parameter list when no recursive
query definitions were created; otherwise it is one text beginning with
"WITH RECURSIVE " holding all definitions comma-joined in creation
order, with the definitions' parameters concatenated in the same
order. -/
theorem C6_with_joins_recursive_queries
    (f : accessControlDashboardPermissionFilter) :
    (f.recQueries = [] → f.With = ("", [])) ∧
    (f.recQueries ≠ [] →
      f.With.1 = "WITH RECURSIVE "
          ++ String.intercalate "," (f.recQueries.map clause.string) ∧
        f.With.2 = (f.recQueries.map clause.params).flatten) := by
  cases hr : f.recQueries with
  | nil =>
    refine ⟨fun _ => ?_, fun hne => absurd rfl hne⟩
    simp [accessControlDashboardPermissionFilter.With, hr]
  | cons r0 rest =>
    refine ⟨fun he => absurd he (by simp), fun _ => ⟨?_, ?_⟩⟩
    · simp only [accessControlDashboardPermissionFilter.With, hr]
      rw [with_foldl_go, List.map_cons]
      show String.intercalate.go ("WITH RECURSIVE " ++ r0.string) ","
          (rest.map clause.string)
        = "WITH RECURSIVE "
          ++ String.intercalate "," (r0.string :: rest.map clause.string)
      rw [go_prepend]
      rfl
    · simp only [accessControlDashboardPermissionFilter.With, hr]
      rw [with_foldl_params, List.map_cons, List.flatten_cons]

/-- C6 witness: a filter with no recursive definitions yields the empty
preamble, and one with two definitions yields the comma-joined preamble
with concatenated parameters. -/
theorem C6_with_joins_recursive_queries_witness :
    (accessControlDashboardPermissionFilter.With
        ⟨none, [], [], fun _ => false, fun _ _ _ _ => ("", []), ⟨"", []⟩, []⟩)
      = ("", []) ∧
    (accessControlDashboardPermissionFilter.With
        ⟨none, [], [], fun _ => false, fun _ _ _ _ => ("", []), ⟨"", []⟩,
          [⟨"A", [Param.pint 1]⟩, ⟨"B", [Param.pstr "x"]⟩]⟩).1
      = "WITH RECURSIVE " ++ String.intercalate "," ["A", "B"] ∧
    (accessControlDashboardPermissionFilter.With
        ⟨none, [], [], fun _ => false, fun _ _ _ _ => ("", []), ⟨"", []⟩,
          [⟨"A", [Param.pint 1]⟩, ⟨"B", [Param.pstr "x"]⟩]⟩).2
      = [Param.pint 1, Param.pstr "x"] := by
  refine ⟨(C6_with_joins_recursive_queries _).1 rfl, ?_, ?_⟩
  · exact ((C6_with_joins_recursive_queries _).2 (by decide)).1
  · rw [((C6_with_joins_recursive_queries _).2 (by decide)).2]
    rfl

/-- C5: a branch whose non-empty action set is fully wildcard-covered
(empty needs-check list) compiles to exactly the unconditional type-tag
condition with zero parameters — `NOT dashboard.is_folder` for the
dashboard branch, `dashboard.is_folder` for the folder branch — and a
filter whose two non-empty action sets are both fully covered compiles
to the pure type-tag disjunction with no parameters and no recursive
queries. -/
theorem C5_wildcard_covered_branch_is_type_tag :
    (∀ (rf : String) (ps : List Param) (n : Bool) (rq : List clause),
      dashboardBranch rf ps [] n rq = ("NOT dashboard.is_folder", [], rq)) ∧
    (∀ (rf : String) (ps : List Param) (n : Bool) (rq : List clause),
      folderBranch rf ps [] n rq = ("dashboard.is_folder", [], rq)) ∧
    ∀ (u : SignedInUser) (permsTable : List (Int × PermMap))
      (permissions : PermMap) (da fa : List String)
      (features : String → Bool)
      (urf : Int → Int → List Int → List String → String × List Param)
      (whereC : clause),
      u.Permissions = some permsTable →
      lookupOrg permsTable u.OrgID = some permissions →
      da ≠ [] → fa ≠ [] →
      actionsToCheck da permissions
        [WildcardsFromKind ScopeDashboards, WildcardsFromKind ScopeFolders]
        = [] →
      actionsToCheck fa permissions [WildcardsFromKind ScopeFolders] = [] →
      (buildClauses ⟨some u, da, fa, features, urf, whereC, []⟩).Where
          = ("(NOT dashboard.is_folder OR dashboard.is_folder)", []) ∧
        (buildClauses ⟨some u, da, fa, features, urf, whereC, []⟩).With
          = ("", []) := by
  refine ⟨fun rf ps n rq => by simp [dashboardBranch],
    fun rf ps n rq => by simp [folderBranch], ?_⟩
  intro u permsTable permissions da fa features urf whereC hP hL hda hfa hdw hfw
  have hda' : da.length > 0 := List.length_pos.mpr hda
  have hfa' : fa.length > 0 := List.length_pos.mpr hfa
  simp only [buildClauses, hP, hL, hdw, hfw, if_pos hda', if_pos hfa']
  simp [dashboardBranch, folderBranch,
    accessControlDashboardPermissionFilter.Where,
    accessControlDashboardPermissionFilter.With]

/-- C5 witness: both action sets are covered by the global wildcard
grant, so the compiled predicate is the bare type-tag disjunction. -/
theorem C5_wildcard_covered_branch_is_type_tag_witness :
    (buildClauses ⟨some ⟨7, 2, "Viewer", [],
        some [(2, [("dashboards:read", ["*"]), ("folders:read", ["*"])])]⟩,
        ["dashboards:read"], ["folders:read"], fun _ => true,
        fun _ _ _ _ => ("x = ?", [Param.pint 0]), ⟨"", []⟩, []⟩).Where
        = ("(NOT dashboard.is_folder OR dashboard.is_folder)", []) ∧
      (buildClauses ⟨some ⟨7, 2, "Viewer", [],
        some [(2, [("dashboards:read", ["*"]), ("folders:read", ["*"])])]⟩,
        ["dashboards:read"], ["folders:read"], fun _ => true,
        fun _ _ _ _ => ("x = ?", [Param.pint 0]), ⟨"", []⟩, []⟩).With
        = ("", []) :=
  C5_wildcard_covered_branch_is_type_tag.2.2
    ⟨7, 2, "Viewer", [],
      some [(2, [("dashboards:read", ["*"]), ("folders:read", ["*"])])]⟩
    [(2, [("dashboards:read", ["*"]), ("folders:read", ["*"])])]
    [("dashboards:read", ["*"]), ("folders:read", ["*"])]
    ["dashboards:read"] ["folders:read"] (fun _ => true)
    (fun _ _ _ _ => ("x = ?", [Param.pint 0])) ⟨"", []⟩ rfl (by decide)
    (by decide) (by decide) (by decide) (by decide)

/-- C2: a needs-check set of size `k ≥ 1` produces an action condition
with exactly 1 placeholder and 1 parameter when `k = 1`, and `k + 1`
placeholders and parameters when `k > 1` — the `k` action names followed
by a required-count value equal to `k` — and each flat scope-membership
subquery therefore carries the role-resolver fragment's placeholders
plus that amount (once for the folder branch's single subquery, twice
for the dashboard branch's two subqueries). -/
theorem C2_explicit_check_placeholder_counts (tc : List String)
    (h : 0 < tc.length) :
    (countQ (actionFilter tc).1
        = (if tc.length = 1 then 1 else tc.length + 1) ∧
      (actionFilter tc).2 = tc.map Param.pstr ++
        (if tc.length = 1 then [] else [Param.pint (tc.length : Int)])) ∧
    ∀ (rf : String) (ps : List Param) (rq : List clause),
      countQ (folderBranch rf ps tc false rq).1
          = countQ rf + (if tc.length = 1 then 1 else tc.length + 1) ∧
        (folderBranch rf ps tc false rq).2.1.length
          = ps.length + (if tc.length = 1 then 1 else tc.length + 1) ∧
        countQ (dashboardBranch rf ps tc false rq).1
          = 2 * countQ rf
            + 2 * (if tc.length = 1 then 1 else tc.length + 1) ∧
        (dashboardBranch rf ps tc false rq).2.1.length
          = 2 * ps.length
            + 2 * (if tc.length = 1 then 1 else tc.length + 1) := by
  have hne : tc ≠ [] := by
    cases tc
    · simp at h
    · simp
  have haf := actionFilter_spec tc hne
  constructor
  · refine ⟨haf.1, ?_⟩
    unfold actionFilter
    by_cases h1 : tc.length = 1
    · simp [h1]
    · simp [h1]
  · intro rf ps rq
    have e1 : countQ "(dashboard.uid IN " = 0 := by decide
    have e2 : countQ "(SELECT substr(scope, 13) FROM permission WHERE scope LIKE \x27folders:uid:%\x27" = 0 := by
      decide
    have e3 : countQ ")" = 0 := by decide
    have e4 : countQ " AND dashboard.is_folder)" = 0 := by decide
    have e5 : countQ "(dashboard.uid IN (SELECT substr(scope, 16) FROM permission WHERE scope LIKE \x27dashboards:uid:%\x27" = 0 := by
      decide
    have e6 : countQ ") AND NOT dashboard.is_folder)" = 0 := by decide
    have e7 : countQ " OR " = 0 := by decide
    have e8 : countQ "(dashboard.folder_id IN (SELECT id FROM dashboard as d " = 0 := by
      decide
    have e9 : countQ "(SELECT substr(scope, 13) FROM permission WHERE scope LIKE \x27folders:uid:%\x27 " = 0 := by
      decide
    have e10 : countQ "WHERE d.uid IN " = 0 := by decide
    refine ⟨?_, ?_, ?_, ?_⟩ <;>
      simp only [folderBranch, dashboardBranch, if_pos h, Bool.false_eq_true,
        if_false, countQ_append, List.length_append, haf.1, haf.2,
        e1, e2, e3, e4, e5, e6, e7, e8, e9, e10] <;>
      omega

/-- C2 witness: a two-action needs-check set yields three placeholders
and three parameters on top of the role-resolver fragment. -/
theorem C2_explicit_check_placeholder_counts_witness :
    (countQ (actionFilter ["dashboards:read", "dashboards:write"]).1
        = (if (["dashboards:read", "dashboards:write"] : List String).length = 1
            then 1 else ["dashboards:read", "dashboards:write"].length + 1) ∧
      (actionFilter ["dashboards:read", "dashboards:write"]).2
        = ["dashboards:read", "dashboards:write"].map Param.pstr ++
          (if (["dashboards:read", "dashboards:write"] : List String).length = 1
            then []
            else [Param.pint (["dashboards:read",
              "dashboards:write"] : List String).length])) ∧
    countQ (folderBranch "ROLES" [] ["dashboards:read", "dashboards:write"]
          false []).1
        = countQ "ROLES"
          + (if (["dashboards:read", "dashboards:write"] : List String).length = 1
              then 1 else ["dashboards:read", "dashboards:write"].length + 1) := by
  have h := C2_explicit_check_placeholder_counts
    ["dashboards:read", "dashboards:write"] (by decide)
  exact ⟨h.1, (h.2 "ROLES" [] []).1⟩

/-! ## Go slice aliasing model for the deep copy in `addRecQry`

Lists are values in this embedding, so the Go `make`+`copy` of
`addRecQry` (source lines 286-287) is invisible above.  To state what
the copy buys, the captured parameter sequence is modelled explicitly:
either a snapshot of its own (what the copy produces) or an aliased view
of the scratch buffer's backing array, read after compilation
finished. -/

/-- A recursive-query definition's captured parameters: a private
snapshot (Go `make` + `copy`), or an alias of length `len` into the
scratch buffer's backing array. -/
inductive CapturedParams where
  | copied : List Param → CapturedParams
  | aliased : Nat → CapturedParams
deriving DecidableEq, Repr

/-- Reading a captured parameter sequence after compilation: a snapshot
is its own contents; an alias reads through whatever the scratch
buffer's backing array holds by then. -/
def readCaptured (backing : List Param) : CapturedParams → List Param
  | .copied s => s
  | .aliased n => backing.take n

/-- The scratch-buffer reuse of `buildClauses` (source lines 224-225):
`permSelectorArgs = permSelectorArgs[:0]` keeps the backing array, and
the folder branch's appends then overwrite it in place, leaving the new
values followed by any remnant of the longer old content. -/
def reuseBacking (old new : List Param) : List Param :=
  new ++ old.drop new.length

/-- What `addRecQry` captures from `whereParams`: the `make` + `copy`
on source lines 286-287 produce a private snapshot. -/
def captureParams (whereParams : List Param) : CapturedParams :=
  CapturedParams.copied whereParams

/-- C7: `addRecQry` snapshots the parameter slice, so the captured
definition's parameters read back unchanged whatever the scratch buffer
holds after the folder branch reused it; the definition appended by
`addRecQry` indeed carries exactly the passed parameters; and an aliased
capture (no copy) would instead read the folder branch's overwrite — a
concrete corruption the copy prevents. -/
theorem C7_addRecQry_deep_copies_params :
    (∀ (whereParams backing : List Param),
      readCaptured backing (captureParams whereParams) = whereParams) ∧
    (∀ (rq : List clause) (queryName whereUIDSelect : String)
        (whereParams : List Param),
      ((addRecQry rq queryName whereUIDSelect whereParams).map
          clause.params).getLast? = some whereParams) ∧
    readCaptured (reuseBacking [Param.pint 1, Param.pint 2] [Param.pstr "w"])
        (CapturedParams.aliased 2)
      ≠ [Param.pint 1, Param.pint 2] := by
  refine ⟨fun _ _ => rfl, ?_, by decide⟩
  intro rq queryName whereUIDSelect whereParams
  simp [addRecQry]

/-- C7 witness: a concrete copied capture survives the scratch-buffer
overwrite unchanged. -/
theorem C7_addRecQry_deep_copies_params_witness :
    readCaptured (reuseBacking [Param.pint 5, Param.pint 6] [Param.pstr "y"])
        (captureParams [Param.pint 5, Param.pint 6])
      = [Param.pint 5, Param.pint 6] ∧
    ((addRecQry [] "RecQry0" "(SELECT 1)" [Param.pint 5]).map
        clause.params).getLast? = some [Param.pint 5] :=
  ⟨C7_addRecQry_deep_copies_params.1 [Param.pint 5, Param.pint 6]
      (reuseBacking [Param.pint 5, Param.pint 6] [Param.pstr "y"]),
    C7_addRecQry_deep_copies_params.2.1 [] "RecQry0" "(SELECT 1)"
      [Param.pint 5]⟩

/-- C8 witness: a concrete Admin legacy filter returns the empty
predicate. -/
theorem C8_admin_bypasses_legacy_filter_witness :
    DashboardPermissionFilter.Where
        ⟨RoleAdmin, fun _ => "0", 1, 2, 3⟩ = ("", []) :=
  C8_admin_bypasses_legacy_filter (fun _ => "0") 1 2 3

/-- C9 witness: a nil user and a nil permission map both yield the
fail-closed predicate. -/
theorem C9_nil_user_or_nil_permissions_fail_closed_witness :
    (NewAccessControlDashboardPermissionFilter none 1 "dash-db"
        (fun _ => false) (fun _ _ _ _ => ("", []))).Where = ("(1 = 0)", []) ∧
    (NewAccessControlDashboardPermissionFilter (some ⟨1, 2, "Viewer", [], none⟩)
        1 "dash-db" (fun _ => false) (fun _ _ _ _ => ("", []))).Where
      = ("(1 = 0)", []) :=
  ⟨C9_nil_user_or_nil_permissions_fail_closed.1 1 "dash-db" (fun _ => false)
      (fun _ _ _ _ => ("", [])),
    C9_nil_user_or_nil_permissions_fail_closed.2 1 2 "Viewer" [] 1 "dash-db"
      (fun _ => false) (fun _ _ _ _ => ("", []))⟩

/-- C4 witness: with a wildcard grant for "a" only, `actionsToCheck`
keeps exactly "b". -/
theorem C4_actionsToCheck_keeps_uncovered_actions_witness :
    actionsToCheck ["a", "b"] [("a", ["*"])] [⟨["*"]⟩]
      = (["a", "b"] : List String).filter (fun a =>
          decide (¬ ∃ s ∈ scopesOf [("a", ["*"])] a, ∃ w ∈ ([⟨["*"]⟩] : List Wildcards),
            w.Contains s = true)) :=
  C4_actionsToCheck_keeps_uncovered_actions ["a", "b"] [("a", ["*"])] [⟨["*"]⟩]

end Permissions
